import Mathlib

/-!
# Transaction service (pkg/api/api.go)

A shallow embedding of the HTTP handlers of `pkg/api/api.go` and the
properties of the in-memory transaction store they operate on.

Modelling conventions.

* The process-wide `transactions` map is passed explicitly: a handler takes the
  map before the request and returns the map after it.
* `time.Time` and `float64` are only copied by the handlers, never inspected,
  so `Data` is parametric in the two types.
* `json.Unmarshal` and `json.Marshal` belong to the Go standard library. They
  are taken as parameters (structure `Json`); every branch the handlers take on
  their results is kept.
* A request is what the handler observes of `*http.Request`: `r.Method`, the
  result of `io.ReadAll(r.Body)` and the parsed query `r.URL.Query()`.
* Every handler also reports, in program order, the operations it performs on
  the mutex `mu` and on the map, so that the locking policy can be stated.
-/

namespace Api

/-- Go `[]byte` payloads and response bodies, kept as text. -/
abbrev Bytes := String

/-- The `Vehicle` struct. -/
structure Vehicle where
  VRM : String
  Country : String
  Make : String
  deriving DecidableEq, Repr

/-- The `Driver` struct. -/
structure Driver where
  FirstName : String
  LastName : String
  Address1 : String
  Address2 : String
  PostCode : String
  City : String
  Region : String
  Country : String
  Phone : String
  Email : String
  deriving DecidableEq, Repr

/-- The `Data` struct (the transaction record). `Time` stands for `time.Time`
and `Float64` for `float64`. -/
structure Data (Time Float64 : Type) where
  ID : String
  LocationDateTime : Time
  Location : String
  TotalAmount : Float64
  Currency : String
  Vehicle : Vehicle
  Driver : Driver
  deriving DecidableEq, Repr

/-- The `Response` struct returned by a successful write. -/
structure Response where
  Status : String
  deriving DecidableEq, Repr

/-- The `transactions` variable, a Go `map[string]Data`: a key is either absent
(`none`) or bound to exactly one record. -/
abbrev Store (Time Float64 : Type) := String → Option (Data Time Float64)

/-- The value of `make(map[string]Data)`: no key is bound. -/
def emptyStore {Time Float64 : Type} : Store Time Float64 := fun _ => none

/-- The map assignment `transactions[k] = d`. -/
def Store.put {Time Float64 : Type} (s : Store Time Float64) (k : String)
    (d : Data Time Float64) : Store Time Float64 :=
  fun k' => if k' = k then some d else s k'

/-- The type `url.Values`, a `map[string][]string`; a missing key reads as the
empty slice. -/
abbrev Values := String → List String

/-- The method `url.Values.Get`: the first value of the key, or the empty string
when there is none. -/
def Values.Get (v : Values) (key : String) : String :=
  match v key with
  | [] => ""
  | x :: _ => x

/-- What a handler observes of an `*http.Request`. -/
structure Request where
  /-- Field `r.Method`. -/
  Method : String
  /-- Result of `io.ReadAll(r.Body)`: the bytes, or the read error. -/
  Body : Except String Bytes
  /-- Result of `r.URL.Query()`. -/
  Query : Values

/-- What a handler writes to the `http.ResponseWriter`. -/
structure HttpResponse where
  status : Nat
  contentType : String
  body : Bytes
  deriving DecidableEq, Repr

/-- The constant `http.StatusOK`. -/
def StatusOK : Nat := 200
/-- The constant `http.StatusBadRequest`. -/
def StatusBadRequest : Nat := 400
/-- The constant `http.StatusMethodNotAllowed`. -/
def StatusMethodNotAllowed : Nat := 405
/-- The constant `http.StatusInternalServerError`. -/
def StatusInternalServerError : Nat := 500
/-- The constant `http.MethodPost`. -/
def MethodPost : String := "POST"
/-- The constant `http.MethodGet`. -/
def MethodGet : String := "GET"

/-- The function `http.Error(w, msg, code)`: a plain-text reply whose body is the
message followed by a newline. -/
def httpError (msg : String) (code : Nat) : HttpResponse :=
  { status := code, contentType := "text/plain; charset=utf-8", body := msg ++ "\n" }

/-- The three closing statements of both handlers: the `Content-Type` header is
set to JSON, the status is 200 and the marshalled bytes are written. -/
def writeJSON (response : Bytes) : HttpResponse :=
  { status := StatusOK, contentType := "application/json", body := response }

/-- The JSON codec of the Go standard library, as used by the handlers. -/
structure Json (Time Float64 : Type) where
  /-- Call `json.Unmarshal(b, &data)` on a zero-valued `data`. -/
  unmarshal : Bytes → Except String (Data Time Float64)
  /-- Call `json.Marshal(data)` on a `Data`. -/
  marshal : Data Time Float64 → Except String Bytes
  /-- Call `json.Marshal(result)` on a `Response`. -/
  marshalResponse : Response → Except String Bytes

/-- Operations on the shared variables `mu` and `transactions`. -/
inductive Event where
  | lock
  | unlock
  | mapWrite (key : String)
  | mapRead (key : String)
  deriving DecidableEq, Repr

/-- Result of running a handler: the reply, the map afterwards and the
operations on `mu` and on the map in program order. -/
structure Outcome (Time Float64 : Type) where
  resp : HttpResponse
  store : Store Time Float64
  events : List Event

/-- The function `handlePostTransaction`. -/
def handlePostTransaction {Time Float64 : Type} (J : Json Time Float64)
    (transactions : Store Time Float64) (r : Request) : Outcome Time Float64 :=
  match r.Body with
  | .error err =>
    { resp := httpError err StatusBadRequest, store := transactions, events := [] }
  | .ok b =>
    match J.unmarshal b with
    | .error err =>
      { resp := httpError err StatusBadRequest, store := transactions, events := [] }
    | .ok data =>
      let transactions1 := transactions.put data.ID data
      let events := [Event.lock, Event.mapWrite data.ID, Event.unlock]
      let result : Response := { Status := "Success" }
      match J.marshalResponse result with
      | .error err =>
        { resp := httpError err StatusInternalServerError, store := transactions1,
          events := events }
      | .ok response =>
        { resp := writeJSON response, store := transactions1, events := events }

/-- The function `handleGetTransaction`. -/
def handleGetTransaction {Time Float64 : Type} (J : Json Time Float64)
    (transactions : Store Time Float64) (r : Request) : Outcome Time Float64 :=
  let id := r.Query.Get "id"
  if id = "" then
    { resp := httpError "param id is missing" StatusBadRequest, store := transactions,
      events := [] }
  else
    match transactions id with
    | none =>
      { resp := httpError "id not found" StatusBadRequest, store := transactions,
        events := [Event.mapRead id] }
    | some data =>
      match J.marshal data with
      | .error err =>
        { resp := httpError err StatusInternalServerError, store := transactions,
          events := [Event.mapRead id] }
      | .ok response =>
        { resp := writeJSON response, store := transactions, events := [Event.mapRead id] }

/-- The handler that `main` registers on `/transactions`: the switch on
`r.Method`. -/
def mainHandleFunc {Time Float64 : Type} (J : Json Time Float64)
    (transactions : Store Time Float64) (r : Request) : Outcome Time Float64 :=
  if r.Method = MethodPost then handlePostTransaction J transactions r
  else if r.Method = MethodGet then handleGetTransaction J transactions r
  else
    { resp := httpError "Method not allowed" StatusMethodNotAllowed, store := transactions,
      events := [] }

/-- The map after a finite sequence of requests served one after the other. -/
def serveAll {Time Float64 : Type} (J : Json Time Float64) :
    Store Time Float64 → List Request → Store Time Float64
  | s, [] => s
  | s, r :: rs => serveAll J (mainHandleFunc J s r).store rs

/-- Walks a sequence of operations with the state of `mu` (`held`) and tells
whether every map access happens while `mu` is held. -/
def lockedAccess : Bool → List Event → Bool
  | _, [] => true
  | _, Event.lock :: es => lockedAccess true es
  | _, Event.unlock :: es => lockedAccess false es
  | held, Event.mapWrite _ :: es => held && lockedAccess held es
  | held, Event.mapRead _ :: es => held && lockedAccess held es

/-- Used to state the history properties: the record a request writes, that is
the decoded body of a POST whose body is read and decodes. -/
def written {Time Float64 : Type} (J : Json Time Float64) (r : Request) :
    Option (Data Time Float64) :=
  if r.Method = MethodPost then
    match r.Body with
    | .error _ => none
    | .ok b =>
      match J.unmarshal b with
      | .error _ => none
      | .ok data => some data
  else none

/-- Used to state the history properties: the record of the most recent write
to `id` in a sequence of requests, if there is one. -/
def lastWritten {Time Float64 : Type} (J : Json Time Float64) (id : String) :
    List Request → Option (Data Time Float64)
  | [] => none
  | r :: rs =>
    match lastWritten J id rs with
    | some d => some d
    | none =>
      match written J r with
      | some d => if d.ID = id then some d else none
      | none => none

/-- The body of a successful write reply. -/
def successBody : Bytes := "\x7b\"status\":\"Success\"\x7d"

/-- A POST request carrying the bytes `b`. -/
def postRequest (b : Bytes) : Request :=
  { Method := MethodPost, Body := .ok b, Query := fun _ => [] }

/-- A GET request whose query is `q`. -/
def getRequest (q : Values) : Request :=
  { Method := MethodGet, Body := .ok "", Query := q }

/-- The query `?id=<id>`. -/
def idQuery (id : String) : Values :=
  fun key => if key = "id" then [id] else []

/-! ## A concrete instance used to exercise the statements -/

/-- The record of the end-to-end scenario, with the timestamp kept as its
RFC 3339 text and the amount in hundredths. -/
def sampleData : Data String Nat :=
  { ID := "T1", LocationDateTime := "2024-01-01T00:00:00Z", Location := "Depot",
    TotalAmount := 500, Currency := "USD",
    Vehicle := { VRM := "AB12CDE", Country := "GB", Make := "Ford" },
    Driver := { FirstName := "A", LastName := "B", Address1 := "", Address2 := "",
                PostCode := "", City := "", Region := "", Country := "", Phone := "",
                Email := "a@b.com" } }

/-- A second record under the identifier of `sampleData`, all other fields zero. -/
def sampleData2 : Data String Nat :=
  { ID := "T1", LocationDateTime := "", Location := "", TotalAmount := 0, Currency := "",
    Vehicle := { VRM := "", Country := "", Make := "" },
    Driver := { FirstName := "", LastName := "", Address1 := "", Address2 := "",
                PostCode := "", City := "", Region := "", Country := "", Phone := "",
                Email := "" } }

/-- A record under another identifier. -/
def sampleData3 : Data String Nat := { sampleData with ID := "T2" }

/-- The zero-valued record, which the body `\x7b\x7d` decodes to. -/
def zeroData : Data String Nat := { sampleData2 with ID := "" }

/-- A codec defined on four payloads only; everything else is rejected. -/
def sampleJson : Json String Nat :=
  { unmarshal := fun b =>
      if b = "one" then .ok sampleData
      else if b = "two" then .ok sampleData2
      else if b = "three" then .ok sampleData3
      else if b = "\x7b\x7d" then .ok zeroData
      else .error "invalid character",
    marshal := fun d => .ok ("id=" ++ d.ID ++ ";location=" ++ d.Location),
    marshalResponse := fun r => .ok ("\x7b\"status\":\"" ++ r.Status ++ "\"\x7d") }

/-- A POST body whose timestamp carries the zone offset `+24:00`. -/
def offsetBody : Bytes :=
  "\x7b\"id\":\"T1\",\"location_datetime\":\"2024-01-01T00:00:00+24:00\"\x7d"

/-- The record `offsetBody` decodes to: identifier `T1`, the timestamp of the
body, every other field zero. -/
def offsetData : Data String Nat :=
  { sampleData2 with LocationDateTime := "2024-01-01T00:00:00+24:00" }

/-- The error `json.Marshal` returns when `Time.MarshalJSON` refuses a zone
offset. -/
def offsetError : String :=
  "json: error calling MarshalJSON for type time.Time: " ++
    "Time.MarshalJSON: timezone hour outside of range [0,23]"

/-- The codec `sampleJson` extended with the asymmetry of `encoding/json` on
timestamps: `Time.UnmarshalJSON` accepts the zone offset `+24:00`, so
`offsetBody` decodes, while `Time.MarshalJSON` refuses that offset, so the
decoded record cannot be encoded. -/
def offsetJson : Json String Nat :=
  { unmarshal := fun b =>
      if b = offsetBody then .ok offsetData else sampleJson.unmarshal b,
    marshal := fun d =>
      if d.LocationDateTime = "2024-01-01T00:00:00+24:00" then .error offsetError
      else sampleJson.marshal d,
    marshalResponse := sampleJson.marshalResponse }

/-! ## Auxiliary facts about the handlers -/

theorem put_same {Time Float64 : Type} (s : Store Time Float64) (k : String)
    (d : Data Time Float64) : s.put k d k = some d := by
  simp [Store.put]

theorem put_other {Time Float64 : Type} (s : Store Time Float64) (k k' : String)
    (d : Data Time Float64) (h : k' ≠ k) : s.put k d k' = s k' := by
  simp [Store.put, h]

theorem get_store {Time Float64 : Type} (J : Json Time Float64) (s : Store Time Float64)
    (r : Request) : (handleGetTransaction J s r).store = s := by
  unfold handleGetTransaction
  dsimp only
  split
  · rfl
  · split
    · rfl
    · split <;> rfl

theorem post_store {Time Float64 : Type} (J : Json Time Float64) (s : Store Time Float64)
    (r : Request) (b : Bytes) (R : Data Time Float64) (hb : r.Body = .ok b)
    (hd : J.unmarshal b = .ok R) : (handlePostTransaction J s r).store = s.put R.ID R := by
  unfold handlePostTransaction
  rw [hb]
  dsimp only
  rw [hd]
  dsimp only
  split <;> rfl

theorem main_store {Time Float64 : Type} (J : Json Time Float64) (s : Store Time Float64)
    (r : Request) :
    (mainHandleFunc J s r).store =
      match written J r with
      | some d => s.put d.ID d
      | none => s := by
  unfold mainHandleFunc written
  by_cases hp : r.Method = MethodPost
  · rw [if_pos hp, if_pos hp]
    unfold handlePostTransaction
    cases hb : r.Body with
    | error e => rfl
    | ok b =>
      dsimp only
      cases hd : J.unmarshal b with
      | error e => rfl
      | ok data =>
        dsimp only
        split <;> rfl
  · rw [if_neg hp, if_neg hp]
    by_cases hg : r.Method = MethodGet
    · rw [if_pos hg]
      exact get_store J s r
    · rw [if_neg hg]

theorem written_post {Time Float64 : Type} (J : Json Time Float64) (r : Request) (b : Bytes)
    (R : Data Time Float64) (hm : r.Method = MethodPost) (hb : r.Body = .ok b)
    (hd : J.unmarshal b = .ok R) : written J r = some R := by
  unfold written
  rw [if_pos hm, hb]
  dsimp only
  rw [hd]

theorem serveAll_lookup {Time Float64 : Type} (J : Json Time Float64) (id : String)
    (rs : List Request) : ∀ s : Store Time Float64,
    serveAll J s rs id =
      match lastWritten J id rs with
      | some d => some d
      | none => s id := by
  induction rs with
  | nil => intro s; rfl
  | cons r rs ih =>
    intro s
    unfold serveAll lastWritten
    rw [ih]
    cases hl : lastWritten J id rs with
    | some d => rfl
    | none =>
      dsimp only
      rw [main_store]
      cases hw : written J r with
      | none => rfl
      | some d =>
        dsimp only
        by_cases hk : d.ID = id
        · rw [if_pos hk, ← hk, put_same]
        · rw [if_neg hk]
          exact put_other s d.ID id d (fun h => hk h.symm)

theorem serveAll_append {Time Float64 : Type} (J : Json Time Float64) (rs rs' : List Request) :
    ∀ s : Store Time Float64, serveAll J s (rs ++ rs') = serveAll J (serveAll J s rs) rs' := by
  induction rs with
  | nil => intro s; rfl
  | cons r rs ih => intro s; exact ih _

theorem get_bound {Time Float64 : Type} (J : Json Time Float64) (s : Store Time Float64)
    (r : Request) (R : Data Time Float64) (hid : r.Query.Get "id" ≠ "")
    (hs : s (r.Query.Get "id") = some R) :
    (handleGetTransaction J s r).resp =
      match J.marshal R with
      | .ok js => { status := 200, contentType := "application/json", body := js }
      | .error e =>
        { status := 500, contentType := "text/plain; charset=utf-8", body := e ++ "\n" } := by
  unfold handleGetTransaction
  dsimp only
  rw [if_neg hid, hs]
  dsimp only
  cases J.marshal R <;> rfl

theorem main_post {Time Float64 : Type} (J : Json Time Float64) (s : Store Time Float64)
    (r : Request) (h : r.Method = MethodPost) :
    mainHandleFunc J s r = handlePostTransaction J s r := by
  unfold mainHandleFunc
  rw [if_pos h]

theorem main_get {Time Float64 : Type} (J : Json Time Float64) (s : Store Time Float64)
    (r : Request) (h : r.Method = MethodGet) :
    mainHandleFunc J s r = handleGetTransaction J s r := by
  unfold mainHandleFunc
  have hne : r.Method ≠ MethodPost := by
    rw [h]; decide
  rw [if_neg hne, if_pos h]

theorem post_resp {Time Float64 : Type} (J : Json Time Float64) (s : Store Time Float64)
    (r : Request) (b : Bytes) (R : Data Time Float64) (out : Bytes) (hb : r.Body = .ok b)
    (hd : J.unmarshal b = .ok R) (hs : J.marshalResponse { Status := "Success" } = .ok out) :
    (handlePostTransaction J s r).resp = writeJSON out := by
  unfold handlePostTransaction
  rw [hb]
  dsimp only
  rw [hd]
  dsimp only
  rw [hs]

/-! ## The contract of the `/transactions` route -/

/-- C1, round trip, as amended. From any store, a POST whose body decodes to a
record `R` with a non-empty identifier is answered 200 with the body
`\x7b"status":"Success"\x7d` and binds `R.ID` to `R`, equal in every field. A
GET for `id = R.ID` served next is answered 200 with the JSON serialization of
`R` when `json.Marshal` accepts `R`, and 500 with the error of `json.Marshal`
when it refuses `R`. -/
theorem post_then_get_round_trip {Time Float64 : Type} (J : Json Time Float64)
    (s : Store Time Float64) (post get : Request) (b : Bytes) (R : Data Time Float64)
    (hpost : post.Method = MethodPost) (hbody : post.Body = .ok b)
    (hdec : J.unmarshal b = .ok R) (hid : R.ID ≠ "")
    (hget : get.Method = MethodGet) (hq : get.Query.Get "id" = R.ID)
    (hsucc : J.marshalResponse { Status := "Success" } = .ok successBody) :
    (mainHandleFunc J s post).resp =
        { status := 200, contentType := "application/json", body := successBody } ∧
      (mainHandleFunc J s post).store R.ID = some R ∧
      (mainHandleFunc J (mainHandleFunc J s post).store get).resp =
        match J.marshal R with
        | .ok js => { status := 200, contentType := "application/json", body := js }
        | .error e =>
          { status := 500, contentType := "text/plain; charset=utf-8", body := e ++ "\n" } := by
  rw [main_post J s post hpost, main_get J _ get hget]
  have hst := post_store J s post b R hbody hdec
  refine ⟨post_resp J s post b R successBody hbody hdec hsucc, ?_, ?_⟩
  · rw [hst, put_same]
  · apply get_bound J _ get R
    · rw [hq]; exact hid
    · rw [hq, hst, put_same]

/-- The round trip on the empty store with the record of the end-to-end
scenario, which `json.Marshal` accepts. -/
theorem post_then_get_round_trip_witness :
    (mainHandleFunc sampleJson emptyStore (postRequest "one")).resp =
        { status := 200, contentType := "application/json", body := successBody } ∧
      (mainHandleFunc sampleJson emptyStore (postRequest "one")).store sampleData.ID =
        some sampleData ∧
      (mainHandleFunc sampleJson (mainHandleFunc sampleJson emptyStore (postRequest "one")).store
          (getRequest (idQuery "T1"))).resp =
        { status := 200, contentType := "application/json", body := "id=T1;location=Depot" } :=
  post_then_get_round_trip sampleJson emptyStore (postRequest "one") (getRequest (idQuery "T1"))
    "one" sampleData rfl rfl rfl (by decide) rfl rfl rfl

/-- C1 as stated fails. The body `offsetBody` decodes to a record with the
non-empty identifier `T1` and its POST on the empty store is answered 200 with
the success body, yet the GET for `id = T1` served next is answered 500, not
200: `json.Marshal` refuses the stored timestamp. -/
theorem round_trip_get_answers_500 :
    offsetJson.unmarshal offsetBody = .ok offsetData ∧
      offsetData.ID = "T1" ∧
      (mainHandleFunc offsetJson emptyStore (postRequest offsetBody)).resp =
        { status := 200, contentType := "application/json", body := successBody } ∧
      (mainHandleFunc offsetJson
          (mainHandleFunc offsetJson emptyStore (postRequest offsetBody)).store
          (getRequest (idQuery "T1"))).resp =
        { status := 500, contentType := "text/plain; charset=utf-8",
          body := offsetError ++ "\n" } ∧
      (mainHandleFunc offsetJson
          (mainHandleFunc offsetJson emptyStore (postRequest offsetBody)).store
          (getRequest (idQuery "T1"))).resp.status ≠ 200 :=
  ⟨rfl, rfl, rfl, rfl, by decide⟩

/-- C2, overwrite and not merge, as amended. After a POST of `R1` followed by a
POST of `R2` with the same non-empty identifier, the store is the one a single
POST of `R2` would have produced, the identifier is bound to `R2` and to no
other record, and a GET for it is answered 200 with the serialization of `R2`
when `json.Marshal` accepts `R2`, and 500 with the error of `json.Marshal`
when it refuses `R2`. -/
theorem second_write_overwrites {Time Float64 : Type} (J : Json Time Float64)
    (s : Store Time Float64) (post1 post2 get : Request) (b1 b2 : Bytes)
    (R1 R2 : Data Time Float64)
    (hpost1 : post1.Method = MethodPost) (hbody1 : post1.Body = .ok b1)
    (hdec1 : J.unmarshal b1 = .ok R1)
    (hpost2 : post2.Method = MethodPost) (hbody2 : post2.Body = .ok b2)
    (hdec2 : J.unmarshal b2 = .ok R2)
    (hsame : R1.ID = R2.ID) (hid : R2.ID ≠ "")
    (hget : get.Method = MethodGet) (hq : get.Query.Get "id" = R2.ID) :
    serveAll J s [post1, post2] = serveAll J s [post2] ∧
      serveAll J s [post1, post2] R2.ID = some R2 ∧
      (∀ d, serveAll J s [post1, post2] R2.ID = some d ↔ d = R2) ∧
      (mainHandleFunc J (serveAll J s [post1, post2]) get).resp =
        match J.marshal R2 with
        | .ok js => { status := 200, contentType := "application/json", body := js }
        | .error e =>
          { status := 500, contentType := "text/plain; charset=utf-8", body := e ++ "\n" } := by
  have h1 : (mainHandleFunc J s post1).store = s.put R1.ID R1 := by
    rw [main_post J s post1 hpost1]; exact post_store J s post1 b1 R1 hbody1 hdec1
  have h2 : ∀ t : Store Time Float64, (mainHandleFunc J t post2).store = t.put R2.ID R2 := by
    intro t
    rw [main_post J t post2 hpost2]; exact post_store J t post2 b2 R2 hbody2 hdec2
  have hall : serveAll J s [post1, post2] = (s.put R1.ID R1).put R2.ID R2 := by
    simp only [serveAll, h1, h2]
  have hone : serveAll J s [post2] = s.put R2.ID R2 := by
    simp only [serveAll, h2]
  have hlook : serveAll J s [post1, post2] R2.ID = some R2 := by
    rw [hall, put_same]
  refine ⟨?_, hlook, ?_, ?_⟩
  · rw [hall, hone]
    funext k
    by_cases hk : k = R2.ID
    · rw [hk, put_same, put_same]
    · rw [put_other _ _ _ _ hk, put_other _ _ _ _ hk, hsame, put_other _ _ _ _ hk]
  · intro d
    rw [hlook]
    constructor
    · intro h; exact (Option.some.inj h).symm
    · intro h; rw [h]
  · rw [main_get J _ get hget]
    apply get_bound J _ get R2
    · rw [hq]; exact hid
    · rw [hq]; exact hlook

/-- The full record of the scenario is replaced by a record whose other fields
are all zero, which `json.Marshal` accepts. -/
theorem second_write_overwrites_witness :
    serveAll sampleJson emptyStore [postRequest "one", postRequest "two"] =
        serveAll sampleJson emptyStore [postRequest "two"] ∧
      serveAll sampleJson emptyStore [postRequest "one", postRequest "two"] sampleData2.ID =
        some sampleData2 ∧
      (∀ d, serveAll sampleJson emptyStore [postRequest "one", postRequest "two"]
          sampleData2.ID = some d ↔ d = sampleData2) ∧
      (mainHandleFunc sampleJson
          (serveAll sampleJson emptyStore [postRequest "one", postRequest "two"])
          (getRequest (idQuery "T1"))).resp =
        { status := 200, contentType := "application/json", body := "id=T1;location=" } :=
  second_write_overwrites sampleJson emptyStore (postRequest "one") (postRequest "two")
    (getRequest (idQuery "T1")) "one" "two" sampleData sampleData2
    rfl rfl rfl rfl rfl rfl rfl (by decide) rfl rfl

/-- C2 as stated fails. The record of the scenario and the record of
`offsetBody` share the non-empty identifier `T1`; after the POST of the first
and then of the second the store binds `T1` to the second, yet the GET for
`id = T1` does not return it: it is answered 500. -/
theorem overwrite_get_answers_500 :
    offsetJson.unmarshal "one" = .ok sampleData ∧
      offsetJson.unmarshal offsetBody = .ok offsetData ∧
      sampleData.ID = offsetData.ID ∧ offsetData.ID = "T1" ∧
      serveAll offsetJson emptyStore [postRequest "one", postRequest offsetBody] "T1" =
        some offsetData ∧
      (mainHandleFunc offsetJson
          (serveAll offsetJson emptyStore [postRequest "one", postRequest offsetBody])
          (getRequest (idQuery "T1"))).resp =
        { status := 500, contentType := "text/plain; charset=utf-8",
          body := offsetError ++ "\n" } ∧
      (mainHandleFunc offsetJson
          (serveAll offsetJson emptyStore [postRequest "one", postRequest offsetBody])
          (getRequest (idQuery "T1"))).resp.status ≠ 200 :=
  ⟨rfl, rfl, rfl, rfl, rfl, rfl, by decide⟩

/-- C3, not found. A GET for a non-empty identifier that is not a key of the
store is answered 400 with the message "id not found" (no record is returned)
and leaves the store unchanged; this holds in particular on the empty store. -/
theorem get_unknown_id {Time Float64 : Type} (J : Json Time Float64)
    (s : Store Time Float64) (get : Request) (id : String)
    (hget : get.Method = MethodGet) (hq : get.Query.Get "id" = id) (hid : id ≠ "")
    (hs : s id = none) :
    (mainHandleFunc J s get).resp =
        { status := 400, contentType := "text/plain; charset=utf-8",
          body := "id not found\n" } ∧
      (mainHandleFunc J s get).store = s ∧
      (mainHandleFunc J emptyStore get).resp =
        { status := 400, contentType := "text/plain; charset=utf-8",
          body := "id not found\n" } := by
  have key : ∀ t : Store Time Float64, t id = none →
      (handleGetTransaction J t get).resp = httpError "id not found" StatusBadRequest := by
    intro t ht
    unfold handleGetTransaction
    dsimp only
    rw [hq, if_neg hid, ht]
  rw [main_get J s get hget, main_get J emptyStore get hget]
  exact ⟨key s hs, get_store J s get, key emptyStore rfl⟩

/-- An unknown identifier on a store that holds another record. -/
theorem get_unknown_id_witness :
    (mainHandleFunc sampleJson (emptyStore.put "T1" sampleData)
        (getRequest (idQuery "UNKNOWN"))).resp =
      { status := 400, contentType := "text/plain; charset=utf-8", body := "id not found\n" } :=
  (get_unknown_id sampleJson (emptyStore.put "T1" sampleData) (getRequest (idQuery "UNKNOWN"))
    "UNKNOWN" rfl rfl (by decide) rfl).1

/-- C4, missing parameter. A GET whose query has no `id` parameter is answered
400 with the message "param id is missing" on every store; the map is neither
read nor changed. -/
theorem get_without_id {Time Float64 : Type} (J : Json Time Float64) (get : Request)
    (hget : get.Method = MethodGet) (hq : get.Query "id" = []) :
    ∀ s : Store Time Float64,
      mainHandleFunc J s get =
        { resp := { status := 400, contentType := "text/plain; charset=utf-8",
                    body := "param id is missing\n" },
          store := s, events := [] } := by
  intro s
  have hg : get.Query.Get "id" = "" := by
    unfold Values.Get
    rw [hq]
  rw [main_get J s get hget]
  unfold handleGetTransaction
  dsimp only
  rw [if_pos hg]
  rfl

/-- A GET with an empty query on a store that holds a record. -/
theorem get_without_id_witness :
    (mainHandleFunc sampleJson (emptyStore.put "T1" sampleData)
        (getRequest (fun _ => []))).resp =
      { status := 400, contentType := "text/plain; charset=utf-8",
        body := "param id is missing\n" } :=
  congrArg Outcome.resp
    (get_without_id sampleJson (getRequest (fun _ => [])) rfl rfl
      (emptyStore.put "T1" sampleData))

/-- C5, malformed write. A POST whose body cannot be read, or is read but does
not decode, with error message `e`, is answered 400 with that message, which
is not the 200 success reply; the map is not touched and the store after the
request is the store before it. -/
theorem post_malformed {Time Float64 : Type} (J : Json Time Float64)
    (s : Store Time Float64) (post : Request) (e : String)
    (hpost : post.Method = MethodPost)
    (hbad : post.Body = .error e ∨ ∃ b, post.Body = .ok b ∧ J.unmarshal b = .error e) :
    (mainHandleFunc J s post).resp =
        { status := 400, contentType := "text/plain; charset=utf-8", body := e ++ "\n" } ∧
      (mainHandleFunc J s post).resp.status ≠ 200 ∧
      (mainHandleFunc J s post).store = s ∧
      (mainHandleFunc J s post).events = [] := by
  have hout : handlePostTransaction J s post =
      { resp := httpError e StatusBadRequest, store := s, events := [] } := by
    unfold handlePostTransaction
    rcases hbad with hb | ⟨b, hb, hd⟩
    · rw [hb]
    · rw [hb]
      dsimp only
      rw [hd]
  rw [main_post J s post hpost, hout]
  refine ⟨rfl, ?_, rfl, rfl⟩
  show (400 : Nat) ≠ 200
  decide

/-- A body that is not valid JSON, on a store that holds a record. -/
theorem post_malformed_witness :
    (mainHandleFunc sampleJson (emptyStore.put "T1" sampleData) (postRequest "not json")).resp =
        { status := 400, contentType := "text/plain; charset=utf-8",
          body := "invalid character" ++ "\n" } ∧
      (mainHandleFunc sampleJson (emptyStore.put "T1" sampleData)
          (postRequest "not json")).resp.status ≠ 200 ∧
      (mainHandleFunc sampleJson (emptyStore.put "T1" sampleData)
          (postRequest "not json")).store = emptyStore.put "T1" sampleData ∧
      (mainHandleFunc sampleJson (emptyStore.put "T1" sampleData)
          (postRequest "not json")).events = [] :=
  post_malformed sampleJson (emptyStore.put "T1" sampleData) (postRequest "not json")
    "invalid character" rfl (Or.inr ⟨"not json", rfl, rfl⟩)

/-- C6, method dispatch. POST is served by `handlePostTransaction`, GET by
`handleGetTransaction`, and a request with any other method is answered 405
whatever its body and query are, without touching the map. -/
theorem method_dispatch {Time Float64 : Type} (J : Json Time Float64)
    (s : Store Time Float64) (r : Request) :
    (r.Method = "POST" → mainHandleFunc J s r = handlePostTransaction J s r) ∧
      (r.Method = "GET" → mainHandleFunc J s r = handleGetTransaction J s r) ∧
      (r.Method ≠ "POST" → r.Method ≠ "GET" →
        mainHandleFunc J s r =
          { resp := { status := 405, contentType := "text/plain; charset=utf-8",
                      body := "Method not allowed\n" },
            store := s, events := [] }) := by
  refine ⟨main_post J s r, main_get J s r, ?_⟩
  intro hp hg
  have hp' : r.Method ≠ MethodPost := hp
  have hg' : r.Method ≠ MethodGet := hg
  unfold mainHandleFunc
  rw [if_neg hp', if_neg hg']
  rfl

/-- A DELETE carrying a decodable body and an `id` parameter is answered 405 and
changes nothing. -/
theorem method_dispatch_witness :
    mainHandleFunc sampleJson emptyStore
        { Method := "DELETE", Body := .ok "one", Query := idQuery "T1" } =
      { resp := { status := 405, contentType := "text/plain; charset=utf-8",
                  body := "Method not allowed\n" },
        store := emptyStore, events := [] } :=
  (method_dispatch sampleJson emptyStore
    { Method := "DELETE", Body := .ok "one", Query := idQuery "T1" }).2.2
    (by decide) (by decide)

/-- C7, lock discipline. The write path brackets its map assignment with
`mu.Lock()` and `mu.Unlock()` on every request, but the read path does not:
the GET for `id = T1` performs its map read as its only operation, with `mu`
not held. -/
theorem get_reads_map_without_lock :
    (∀ (Time Float64 : Type) (J : Json Time Float64) (s : Store Time Float64) (r : Request),
        lockedAccess false (handlePostTransaction J s r).events = true) ∧
      (handleGetTransaction sampleJson emptyStore (getRequest (idQuery "T1"))).events =
        [Event.mapRead "T1"] ∧
      lockedAccess false
        (handleGetTransaction sampleJson emptyStore (getRequest (idQuery "T1"))).events =
        false := by
  refine ⟨?_, rfl, rfl⟩
  intro Time Float64 J s r
  unfold handlePostTransaction
  split
  · rfl
  · split
    · rfl
    · dsimp only
      split <;> rfl

/-- C8, frame of the store, as amended. A request changes the store at most at
one key, and only if it is a POST whose body decodes to a record, the changed
key being that record's identifier; a request of any other method, GET
included, leaves the store as it was. A write of `A` leaves every key other
than `A.ID` as it was, and two writes to different identifiers give the same
store in either order, with both records bound in it. A GET for either record
on that store is answered 200 with its serialization when its identifier is
non-empty and `json.Marshal` accepts it, 400 "param id is missing" when its
identifier is empty, and 500 when `json.Marshal` refuses it. -/
theorem store_frame {Time Float64 : Type} (J : Json Time Float64)
    (s : Store Time Float64) (r : Request) :
    (∀ k, (mainHandleFunc J s r).store k ≠ s k →
        r.Method = "POST" ∧ ∃ b R, r.Body = .ok b ∧ J.unmarshal b = .ok R ∧ k = R.ID) ∧
      (∀ k k', (mainHandleFunc J s r).store k ≠ s k → (mainHandleFunc J s r).store k' ≠ s k' →
        k = k') ∧
      (r.Method ≠ "POST" → (mainHandleFunc J s r).store = s) ∧
      (∀ (ra rb : Request) (ba bb : Bytes) (A B : Data Time Float64),
        ra.Method = "POST" → ra.Body = .ok ba → J.unmarshal ba = .ok A →
        rb.Method = "POST" → rb.Body = .ok bb → J.unmarshal bb = .ok B →
        A.ID ≠ B.ID →
        (∀ k, k ≠ A.ID → (mainHandleFunc J s ra).store k = s k) ∧
          serveAll J s [ra, rb] = serveAll J s [rb, ra] ∧
          serveAll J s [ra, rb] A.ID = some A ∧
          serveAll J s [ra, rb] B.ID = some B ∧
          (∀ (get : Request) (rec : Data Time Float64), get.Method = "GET" →
            (rec = A ∨ rec = B) → get.Query.Get "id" = rec.ID →
            (mainHandleFunc J (serveAll J s [ra, rb]) get).resp =
              if rec.ID = "" then
                { status := 400, contentType := "text/plain; charset=utf-8",
                  body := "param id is missing\n" }
              else
                match J.marshal rec with
                | .ok js => { status := 200, contentType := "application/json", body := js }
                | .error e =>
                  { status := 500, contentType := "text/plain; charset=utf-8",
                    body := e ++ "\n" })) := by
  have hchg : ∀ k, (mainHandleFunc J s r).store k ≠ s k →
      r.Method = "POST" ∧ ∃ b R, r.Body = .ok b ∧ J.unmarshal b = .ok R ∧ k = R.ID := by
    intro k hk
    rw [main_store] at hk
    unfold written at hk
    by_cases hp : r.Method = MethodPost
    · rw [if_pos hp] at hk
      refine ⟨hp, ?_⟩
      cases hb : r.Body with
      | error e => rw [hb] at hk; exact absurd rfl hk
      | ok b =>
        rw [hb] at hk
        dsimp only at hk
        cases hd : J.unmarshal b with
        | error e => rw [hd] at hk; exact absurd rfl hk
        | ok R =>
          rw [hd] at hk
          dsimp only at hk
          refine ⟨b, R, rfl, hd, ?_⟩
          by_contra hne
          exact hk (put_other s R.ID k R hne)
    · rw [if_neg hp] at hk
      exact absurd rfl hk
  refine ⟨hchg, ?_, ?_, ?_⟩
  · intro k k' hk hk'
    obtain ⟨_, b, R, hb, hd, hkR⟩ := hchg k hk
    obtain ⟨_, b', R', hb', hd', hkR'⟩ := hchg k' hk'
    rw [hb] at hb'
    cases hb'
    rw [hd] at hd'
    cases hd'
    rw [hkR, hkR']
  · intro hp
    have hp' : r.Method ≠ MethodPost := hp
    rw [main_store]
    unfold written
    rw [if_neg hp']
  · intro ra rb ba bb A B hma hba hda hmb hbb hdb hne
    have ha : ∀ t : Store Time Float64, (mainHandleFunc J t ra).store = t.put A.ID A := by
      intro t
      rw [main_post J t ra hma]; exact post_store J t ra ba A hba hda
    have hb : ∀ t : Store Time Float64, (mainHandleFunc J t rb).store = t.put B.ID B := by
      intro t
      rw [main_post J t rb hmb]; exact post_store J t rb bb B hbb hdb
    have hab : serveAll J s [ra, rb] = (s.put A.ID A).put B.ID B := by
      simp only [serveAll, ha, hb]
    have hba' : serveAll J s [rb, ra] = (s.put B.ID B).put A.ID A := by
      simp only [serveAll, ha, hb]
    have hA : serveAll J s [ra, rb] A.ID = some A := by
      rw [hab, put_other _ _ _ _ hne, put_same]
    have hB : serveAll J s [ra, rb] B.ID = some B := by
      rw [hab, put_same]
    refine ⟨?_, ?_, hA, hB, ?_⟩
    · intro k hk
      rw [ha]
      exact put_other s A.ID k A hk
    · rw [hab, hba']
      funext k
      by_cases hkb : k = B.ID
      · have hka : k ≠ A.ID := fun h => hne (h.symm.trans hkb)
        rw [put_other _ _ _ _ hka, hkb, put_same, put_same]
      · rw [put_other _ _ _ _ hkb]
        by_cases hka : k = A.ID
        · rw [hka, put_same, put_same]
        · rw [put_other _ _ _ _ hka, put_other _ _ _ _ hka, put_other _ _ _ _ hkb]
    · intro get rec hget hrec hq
      have hbound : serveAll J s [ra, rb] rec.ID = some rec := by
        rcases hrec with h | h <;> rw [h]
        · exact hA
        · exact hB
      rw [main_get J _ get hget]
      by_cases hid : rec.ID = ""
      · rw [if_pos hid]
        unfold handleGetTransaction
        dsimp only
        rw [if_pos (hq.trans hid)]
        rfl
      · rw [if_neg hid]
        apply get_bound J _ get rec
        · rw [hq]; exact hid
        · rw [hq]; exact hbound

/-- On a store that holds `T1`, the POST of a record with identifier `T2`
changes the key `T2`, which the frame property traces back to a decodable POST
of a record with that identifier. On the empty store, the writes of `T1` and of
`T2` give the same store in either order and the GET for each is answered 200
with the serialization of the record written under it. -/
theorem store_frame_witness :
    ((postRequest "three").Method = "POST" ∧
        ∃ b R, (postRequest "three").Body = .ok b ∧ sampleJson.unmarshal b = .ok R ∧
          "T2" = R.ID) ∧
      serveAll sampleJson emptyStore [postRequest "one", postRequest "three"] =
        serveAll sampleJson emptyStore [postRequest "three", postRequest "one"] ∧
      (mainHandleFunc sampleJson
          (serveAll sampleJson emptyStore [postRequest "one", postRequest "three"])
          (getRequest (idQuery "T1"))).resp =
        { status := 200, contentType := "application/json", body := "id=T1;location=Depot" } ∧
      (mainHandleFunc sampleJson
          (serveAll sampleJson emptyStore [postRequest "one", postRequest "three"])
          (getRequest (idQuery "T2"))).resp =
        { status := 200, contentType := "application/json", body := "id=T2;location=Depot" } :=
  have h := (store_frame sampleJson emptyStore (postRequest "one")).2.2.2
    (postRequest "one") (postRequest "three") "one" "three" sampleData sampleData3
    rfl rfl rfl rfl rfl rfl (by decide)
  ⟨(store_frame sampleJson (emptyStore.put "T1" sampleData) (postRequest "three")).1 "T2"
      (by decide),
    h.2.1,
    h.2.2.2.2 (getRequest (idQuery "T1")) sampleData rfl (Or.inl rfl) rfl,
    h.2.2.2.2 (getRequest (idQuery "T2")) sampleData3 rfl (Or.inr rfl) rfl⟩

/-- C8 as stated fails. The body `\x7b\x7d` decodes to a record with the empty
identifier and the body `three` to one with identifier `T2`; after both
writes, in either order, both records are bound in the store, yet the first is
not readable: the GET for its identifier is answered 400, not 200. -/
theorem empty_id_write_bound_not_readable :
    sampleJson.unmarshal "\x7b\x7d" = .ok zeroData ∧
      sampleJson.unmarshal "three" = .ok sampleData3 ∧
      zeroData.ID ≠ sampleData3.ID ∧
      serveAll sampleJson emptyStore [postRequest "\x7b\x7d", postRequest "three"] zeroData.ID =
        some zeroData ∧
      serveAll sampleJson emptyStore [postRequest "\x7b\x7d", postRequest "three"]
        sampleData3.ID = some sampleData3 ∧
      serveAll sampleJson emptyStore [postRequest "three", postRequest "\x7b\x7d"] zeroData.ID =
        some zeroData ∧
      (getRequest (idQuery zeroData.ID)).Query.Get "id" = zeroData.ID ∧
      (mainHandleFunc sampleJson
          (serveAll sampleJson emptyStore [postRequest "\x7b\x7d", postRequest "three"])
          (getRequest (idQuery zeroData.ID))).resp =
        { status := 400, contentType := "text/plain; charset=utf-8",
          body := "param id is missing\n" } ∧
      (mainHandleFunc sampleJson
          (serveAll sampleJson emptyStore [postRequest "three", postRequest "\x7b\x7d"])
          (getRequest (idQuery zeroData.ID))).resp.status ≠ 200 :=
  ⟨rfl, rfl, by decide, rfl, rfl, rfl, rfl, rfl, by decide⟩

/-- C9, never deleted, as amended. Along any sequence of requests the set of
bound identifiers only grows. Once a POST has written a record with a
non-empty identifier, then after any later requests that identifier is bound
to the record of the most recent write to it (the first one if none
followed), and a GET for it finds that record: it is answered 200 with its
serialization when `json.Marshal` accepts it, and 500 with the error of
`json.Marshal` when it refuses it. -/
theorem never_deleted {Time Float64 : Type} (J : Json Time Float64)
    (s : Store Time Float64) (rs : List Request) :
    (∀ (rs' : List Request) (k : String),
        (serveAll J s rs k).isSome = true → (serveAll J s (rs ++ rs') k).isSome = true) ∧
      (∀ (post : Request) (b : Bytes) (R : Data Time Float64) (later : List Request)
          (get : Request),
        post.Method = "POST" → post.Body = .ok b → J.unmarshal b = .ok R → R.ID ≠ "" →
        get.Method = "GET" → get.Query.Get "id" = R.ID →
        ∃ R', lastWritten J R.ID (post :: later) = some R' ∧
          (lastWritten J R.ID later = none → R' = R) ∧
          serveAll J s (rs ++ post :: later) R.ID = some R' ∧
          (mainHandleFunc J (serveAll J s (rs ++ post :: later)) get).resp =
            match J.marshal R' with
            | .ok js => { status := 200, contentType := "application/json", body := js }
            | .error e =>
              { status := 500, contentType := "text/plain; charset=utf-8",
                body := e ++ "\n" }) := by
  constructor
  · intro rs' k hk
    rw [serveAll_append, serveAll_lookup]
    cases lastWritten J k rs' with
    | some d => rfl
    | none => exact hk
  · intro post b R later get hpost hbody hdec hid hget hq
    have hw : written J post = some R := written_post J post b R hpost hbody hdec
    have hlast : ∃ R', lastWritten J R.ID (post :: later) = some R' ∧
        (lastWritten J R.ID later = none → R' = R) := by
      cases hl : lastWritten J R.ID later with
      | some d =>
        refine ⟨d, ?_, fun h => by cases h⟩
        rw [lastWritten, hl]
      | none =>
        refine ⟨R, ?_, fun _ => rfl⟩
        rw [lastWritten, hl]
        dsimp only
        rw [hw]
        dsimp only
        rw [if_pos rfl]
    obtain ⟨R', hR', hfirst⟩ := hlast
    have hlook : serveAll J s (rs ++ post :: later) R.ID = some R' := by
      rw [serveAll_append, serveAll_lookup, hR']
    refine ⟨R', hR', hfirst, hlook, ?_⟩
    rw [main_get J _ get hget]
    apply get_bound J _ get R'
    · rw [hq]; exact hid
    · rw [hq]; exact hlook

/-- A write of `T1` followed by a DELETE, a write of `T2`, a GET, a malformed
POST, a second write of `T1` and a GET for an unknown identifier: `T1` is still
bound, to the record of its second write, and the GET for it is answered 200
with the serialization of that record. -/
theorem never_deleted_witness :
    (∃ R', lastWritten sampleJson sampleData.ID
          (postRequest "one" ::
            [{ Method := "DELETE", Body := .ok "one", Query := idQuery "T1" },
             postRequest "three", getRequest (idQuery "T1"), postRequest "not json",
             postRequest "two", getRequest (idQuery "UNKNOWN")]) = some R' ∧
        (lastWritten sampleJson sampleData.ID
            [{ Method := "DELETE", Body := .ok "one", Query := idQuery "T1" },
             postRequest "three", getRequest (idQuery "T1"), postRequest "not json",
             postRequest "two", getRequest (idQuery "UNKNOWN")] = none → R' = sampleData) ∧
        serveAll sampleJson emptyStore
          ([] ++ postRequest "one" ::
            [{ Method := "DELETE", Body := .ok "one", Query := idQuery "T1" },
             postRequest "three", getRequest (idQuery "T1"), postRequest "not json",
             postRequest "two", getRequest (idQuery "UNKNOWN")]) sampleData.ID = some R' ∧
        (mainHandleFunc sampleJson
          (serveAll sampleJson emptyStore
            ([] ++ postRequest "one" ::
              [{ Method := "DELETE", Body := .ok "one", Query := idQuery "T1" },
               postRequest "three", getRequest (idQuery "T1"), postRequest "not json",
               postRequest "two", getRequest (idQuery "UNKNOWN")]))
          (getRequest (idQuery "T1"))).resp =
          match sampleJson.marshal R' with
          | .ok js => { status := 200, contentType := "application/json", body := js }
          | .error e =>
            { status := 500, contentType := "text/plain; charset=utf-8", body := e ++ "\n" }) ∧
      serveAll sampleJson emptyStore
        [postRequest "one", { Method := "DELETE", Body := .ok "one", Query := idQuery "T1" },
         postRequest "three", getRequest (idQuery "T1"), postRequest "not json",
         postRequest "two", getRequest (idQuery "UNKNOWN")] "T1" = some sampleData2 ∧
      (mainHandleFunc sampleJson
        (serveAll sampleJson emptyStore
          [postRequest "one", { Method := "DELETE", Body := .ok "one", Query := idQuery "T1" },
           postRequest "three", getRequest (idQuery "T1"), postRequest "not json",
           postRequest "two", getRequest (idQuery "UNKNOWN")])
        (getRequest (idQuery "T1"))).resp =
        { status := 200, contentType := "application/json", body := "id=T1;location=" } :=
  ⟨(never_deleted sampleJson emptyStore []).2 (postRequest "one") "one" sampleData
      [{ Method := "DELETE", Body := .ok "one", Query := idQuery "T1" },
       postRequest "three", getRequest (idQuery "T1"), postRequest "not json",
       postRequest "two", getRequest (idQuery "UNKNOWN")]
      (getRequest (idQuery "T1")) rfl rfl rfl (by decide) rfl rfl,
    rfl, rfl⟩

/-- C9 as stated fails. The record of the scenario is written under `T1` (POST
answered 200) and the GET for `T1` served right after is answered 200; after
the later requests, a DELETE and the POST of `offsetBody`, which is answered
200 and rebinds `T1`, the GET for `T1` is answered 500, not 200. -/
theorem later_write_get_answers_500 :
    (mainHandleFunc offsetJson emptyStore (postRequest "one")).resp =
        { status := 200, contentType := "application/json", body := successBody } ∧
      (mainHandleFunc offsetJson (serveAll offsetJson emptyStore [postRequest "one"])
          (getRequest (idQuery "T1"))).resp.status = 200 ∧
      (mainHandleFunc offsetJson (serveAll offsetJson emptyStore [postRequest "one"])
          (postRequest offsetBody)).resp =
        { status := 200, contentType := "application/json", body := successBody } ∧
      serveAll offsetJson emptyStore
        [postRequest "one", { Method := "DELETE", Body := .ok "", Query := idQuery "T1" },
         postRequest offsetBody] "T1" = some offsetData ∧
      (mainHandleFunc offsetJson
          (serveAll offsetJson emptyStore
            [postRequest "one", { Method := "DELETE", Body := .ok "", Query := idQuery "T1" },
             postRequest offsetBody])
          (getRequest (idQuery "T1"))).resp =
        { status := 500, contentType := "text/plain; charset=utf-8",
          body := offsetError ++ "\n" } ∧
      (mainHandleFunc offsetJson
          (serveAll offsetJson emptyStore
            [postRequest "one", { Method := "DELETE", Body := .ok "", Query := idQuery "T1" },
             postRequest offsetBody])
          (getRequest (idQuery "T1"))).resp.status ≠ 200 :=
  ⟨rfl, rfl, rfl, rfl, rfl, by decide⟩

end Api
